import Mathlib

/-!
Shallow embedding of the legalbot crawler core, translated from the
repository's JavaScript sources:

* `src/src/client/errors.js`  — typed error taxonomy (`CrawlerError` and its
  subclasses, `ErrorFactory`);
* `src/src/client/retries.js` — `RetryManager` (`calculateDelay`,
  `shouldRetry`, `withRetries`);
* `src/src/client/index.js`   — `Crawler` (`executePipeline`, the
  classification of failed responses inside `fetch`, `extract`);
* `src/unnamed/part_002`      — `HeaderManager` (`getHeaders`,
  `getNextUserAgent`);
* `src/unnamed/part_001`      — `ConcurrencyPool` (`add`, `waitForAll`).

JavaScript numbers used for delays are modelled as rationals, attempt
counters and sizes as naturals.  Promise-based code is modelled either as
sequential state passing (a single caller at a time; the per-key locks then
have no visible effect) or, for the concurrency pool, as an explicit event
interpreter whose atomic steps are the synchronous blocks between `await`
suspension points of the source.
-/

/- ====================  Error taxonomy (src/src/client/errors.js)  ==================== -/

/-- Error class names as JavaScript's `this.constructor.name` reports them for
the classes in src/src/client/errors.js. -/
inductive ErrorName where
  | crawlerError
  | networkError
  | rateLimitError
  | parseError
  | validationError
  | pipelineError
  | queueError
  deriving Repr, DecidableEq

/-- String form of an error class name, as `error.name` would read in JS. -/
def ErrorName.asString : ErrorName → String
  | .crawlerError => "CrawlerError"
  | .networkError => "NetworkError"
  | .rateLimitError => "RateLimitError"
  | .parseError => "ParseError"
  | .validationError => "ValidationError"
  | .pipelineError => "PipelineError"
  | .queueError => "QueueError"

/-- Metadata object carried by a `CrawlerError`.  The fields are the ones the
constructors in errors.js ever write (`retryAfter`, `stage`, `pipelineId`,
`queueName`); an absent JS property is `none`. -/
structure Metadata where
  retryAfter : Option Int := none
  stage : Option String := none
  pipelineId : Option String := none
  queueName : Option String := none
  deriving Repr, DecidableEq

/-- A JavaScript error value as the crawler sees it: either a plain (non
`CrawlerError`) error carrying the transport fields `isRetryableError`
inspects, or a `CrawlerError` instance with the fields set by the
constructors in errors.js. -/
inductive JsError where
  | plain (message : String) (code : Option String := none) (typ : Option String := none)
  | crawler (name : ErrorName) (message : String) (url : Option String)
      (statusCode : Option Nat) (retryable : Bool) (metadata : Metadata)
  deriving Repr, DecidableEq

/-- The `options` object passed to the error constructors and to
`ErrorFactory.createError`.  `originalError` mirrors the property
`Crawler.executePipeline` passes; no constructor in errors.js ever reads it,
which the definitions below reproduce. -/
structure ErrOptions where
  url : Option String := none
  statusCode : Option Nat := none
  retryable : Option Bool := none
  metadata : Metadata := {}
  retryAfter : Option Int := none
  stage : Option String := none
  pipelineId : Option String := none
  queueName : Option String := none
  originalError : Option JsError := none
  deriving Repr

/-- Base constructor `CrawlerError(message, options)`:
`retryable = options.retryable ?? true`, `metadata = options.metadata || {}`. -/
def mkCrawlerError (name : ErrorName) (message : String) (opts : ErrOptions) : JsError :=
  .crawler name message opts.url opts.statusCode (opts.retryable.getD true) opts.metadata

/-- NetworkError: forces `retryable: true`. -/
def mkNetworkError (message : String) (opts : ErrOptions) : JsError :=
  mkCrawlerError .networkError message { opts with retryable := some true }

/-- RateLimitError: forces `retryable: true` and copies `options.retryAfter`
into the metadata. -/
def mkRateLimitError (message : String) (opts : ErrOptions) : JsError :=
  mkCrawlerError .rateLimitError message
    { opts with retryable := some true,
                metadata := { opts.metadata with retryAfter := opts.retryAfter } }

/-- ParseError: forces `retryable: false`. -/
def mkParseError (message : String) (opts : ErrOptions) : JsError :=
  mkCrawlerError .parseError message { opts with retryable := some false }

/-- ValidationError: forces `retryable: false`. -/
def mkValidationError (message : String) (opts : ErrOptions) : JsError :=
  mkCrawlerError .validationError message { opts with retryable := some false }

/-- PipelineError: copies `stage` and `pipelineId` into the metadata and
leaves `retryable` to the base default (`options.retryable ?? true`). -/
def mkPipelineError (message : String) (opts : ErrOptions) : JsError :=
  mkCrawlerError .pipelineError message
    { opts with metadata :=
        { opts.metadata with stage := opts.stage, pipelineId := opts.pipelineId } }

/-- QueueError: copies `queueName` into the metadata. -/
def mkQueueError (message : String) (opts : ErrOptions) : JsError :=
  mkCrawlerError .queueError message
    { opts with metadata := { opts.metadata with queueName := opts.queueName } }

/-- ErrorFactory.createError: dispatch on the `type` string, falling back to
the base `CrawlerError` for unknown kinds. -/
def createError (kind : String) (message : String) (opts : ErrOptions := {}) : JsError :=
  if kind = "network" then mkNetworkError message opts
  else if kind = "rateLimit" then mkRateLimitError message opts
  else if kind = "parse" then mkParseError message opts
  else if kind = "validation" then mkValidationError message opts
  else if kind = "pipeline" then mkPipelineError message opts
  else if kind = "queue" then mkQueueError message opts
  else mkCrawlerError .crawlerError message opts

/-- ErrorFactory.isRetryableError: a `CrawlerError`'s own flag, else the
transport-failure signals of a plain error. -/
def isRetryableError : JsError → Bool
  | .crawler _ _ _ _ retryable _ => retryable
  | .plain _ code typ =>
      code == some "ECONNRESET" || code == some "ECONNREFUSED" ||
      code == some "ETIMEDOUT" || typ == some "request-timeout"

/-- The `error.name` string of a JS error (plain `Error` instances report
"Error"). -/
def JsError.jsName : JsError → String
  | .plain .. => "Error"
  | .crawler name .. => name.asString

/-- The `error.message` string. -/
def JsError.msg : JsError → String
  | .plain message .. => message
  | .crawler _ message .. => message

/-- The `error.retryable` flag; `none` for a plain error without the field. -/
def JsError.retryableFlag : JsError → Option Bool
  | .plain .. => none
  | .crawler _ _ _ _ retryable _ => some retryable

/-- The `error.metadata.retryAfter` value of a `CrawlerError`. -/
def JsError.metaRetryAfter : JsError → Option Int
  | .plain .. => none
  | .crawler _ _ _ _ _ metadata => metadata.retryAfter

/-- The `error.metadata.pipelineId` value of a `CrawlerError`. -/
def JsError.metaPipelineId : JsError → Option String
  | .plain .. => none
  | .crawler _ _ _ _ _ metadata => metadata.pipelineId

/-- Truthiness of `error.metadata.retryAfter` as the guard
`error.name === 'RateLimitError' && error.metadata.retryAfter` evaluates it
(absent and 0 are falsy). -/
def JsError.retryAfterTruthy (e : JsError) : Bool :=
  match e.metaRetryAfter with
  | none => false
  | some n => n != 0

/- ====================  RetryManager (src/src/client/retries.js)  ==================== -/

/-- Retry configuration, the shape of `DEFAULT_RETRY_CONFIG` in
src/src/utils/constants.js.  Delays are JS numbers, modelled as rationals. -/
structure RetryConfig where
  maxRetries : Nat
  initialDelay : ℚ
  maxDelay : ℚ
  backoffFactor : ℚ
  deriving Repr, DecidableEq

/-- The repository's default retry configuration
(src/src/utils/constants.js, first document). -/
def DEFAULT_RETRY_CONFIG : RetryConfig :=
  { maxRetries := 5, initialDelay := 2000, maxDelay := 60000, backoffFactor := 2 }

/-- Math.min of two (non-NaN) numbers. -/
def jsMin (a b : ℚ) : ℚ := if a ≤ b then a else b

/-- RetryManager.calculateDelay.  `jitterRand` stands for the `Math.random()`
sample in `[0, 1]`; the jitter term is
`exponentialDelay * 0.25 * (jitterRand * 2 - 1)`, so `jitterRand = 1/2`
makes the jitter term exactly 0. -/
def calculateDelay (cfg : RetryConfig) (jitterRand : ℚ) (attempt : Nat) : ℚ :=
  let exponentialDelay := cfg.initialDelay * cfg.backoffFactor ^ (attempt - 1)
  let jitter := exponentialDelay * (1 / 4) * (jitterRand * 2 - 1)
  jsMin (exponentialDelay + jitter) cfg.maxDelay

/-- RetryManager.shouldRetry.  The rate-limit branch of the source returns
`true` exactly like the fall-through, which this definition keeps. -/
def shouldRetry (cfg : RetryConfig) (e : JsError) (attempt : Nat) : Bool :=
  if attempt ≥ cfg.maxRetries then false
  else if ¬ isRetryableError e then false
  else if e.jsName == "RateLimitError" && e.retryAfterTruthy then true
  else true

/-- The delay actually used by an attempt of `withRetries`: the computed
backoff, overridden by `retryAfter * 1000` for a rate-limit error whose
metadata carries a truthy `retryAfter` (retries.js lines 92–97). -/
def retryDelay (cfg : RetryConfig) (jitterRand : ℚ) (attempt : Nat) (e : JsError) : ℚ :=
  let delay := calculateDelay cfg jitterRand attempt
  if e.jsName == "RateLimitError" && e.retryAfterTruthy then
    ((e.metaRetryAfter.getD 0 : Int) : ℚ) * 1000
  else delay

/-- One entry of `retryHistory` (the `timestamp` field of the source, a wall
clock reading used only for diagnostics, is not modelled). -/
structure RetryRecord where
  attempt : Nat
  error : JsError
  delay : ℚ
  deriving Repr, DecidableEq

instance {ε α : Type} [DecidableEq ε] [DecidableEq α] : DecidableEq (Except ε α) := fun a b =>
  match a, b with
  | .ok x, .ok y =>
      match decEq x y with
      | isTrue h => isTrue (h ▸ rfl)
      | isFalse h => isFalse fun hh => h (Except.ok.inj hh)
  | .error x, .error y =>
      match decEq x y with
      | isTrue h => isTrue (h ▸ rfl)
      | isFalse h => isFalse fun hh => h (Except.error.inj hh)
  | .ok _, .error _ => isFalse fun h => Except.noConfusion h
  | .error _, .ok _ => isFalse fun h => Except.noConfusion h

/-- State of a `RetryManager` restricted to one key, plus an invocation
counter instrumenting how often `operation()` has been called.  `lock` is the
promise stored in `retryLocks`: `.ok ()` for a resolved promise, `.error e`
for one rejected with `e`. -/
structure RMState where
  lock : Except JsError Unit
  history : List RetryRecord
  calls : Nat
  deriving Repr, DecidableEq

/-- Fresh `RetryManager` state for a key: `getRetryLock` installs a resolved
promise, the history map has no entry. -/
def rmInit : RMState := { lock := .ok (), history := [], calls := 0 }

/-- One execution of the `while (attempt <= maxRetries)` loop body of
`withRetries`, continued recursively.  `fuel` equals
`maxRetries + 1 - attempt`, so `fuel = 0` is the loop exit where the source
throws `lastError` (`.error none` models throwing the initial `null`).
`op i` is the result of the `(i+1)`-th invocation of the deterministic
operation; `rand a` the `Math.random()` sample of attempt `a`.

Faithful to the source: `await this.getRetryLock(retryKey)` re-raises the
rejection of the lock left by a previous failed attempt, in which case the
operation is not invoked and the outer `catch` advances `attempt`. -/
def withRetriesLoop (cfg : RetryConfig) (rand : Nat → ℚ) (op : Nat → Except JsError α) :
    Nat → Nat → RMState → Option JsError → Except (Option JsError) α × RMState
  | 0, _, st, lastError => (.error lastError, st)
  | fuel + 1, attempt, st, lastError =>
    match st.lock with
    | .error e =>
        -- `await getRetryLock` throws: outer catch decides
        if shouldRetry cfg e attempt then
          withRetriesLoop cfg rand op fuel (attempt + 1) st lastError
        else (.error (some e), st)
    | .ok () =>
        match op st.calls with
        | .ok a =>
            -- success: history cleared, the stored lock is the resolved attempt
            (.ok a, { lock := .ok (), history := [], calls := st.calls + 1 })
        | .error e =>
            if shouldRetry cfg e attempt then
              let delay := retryDelay cfg (rand attempt) attempt e
              withRetriesLoop cfg rand op fuel (attempt + 1)
                { lock := .error e,
                  history := st.history ++ [{ attempt := attempt, error := e, delay := delay }],
                  calls := st.calls + 1 } (some e)
            else
              -- rethrown by the inner catch without recording, rethrown by the outer
              (.error (some e), { lock := .error e, history := st.history, calls := st.calls + 1 })

/-- RetryManager.withRetries on a fresh key: `attempt` starts at 1,
`lastError` at `null`.  Returns the settled result (`.error none` is a
rejection with `null`) together with the final per-key state. -/
def withRetries (cfg : RetryConfig) (rand : Nat → ℚ) (op : Nat → Except JsError α) :
    Except (Option JsError) α × RMState :=
  withRetriesLoop cfg rand op cfg.maxRetries 1 rmInit none

/- ====================  Fetch failure classification (src/src/client/index.js)  ==================== -/

/-- Longest digit run at the head of a character list. -/
def leadingDigits (cs : List Char) : List Char := cs.takeWhile (·.isDigit)

/-- Numeric value of a digit run. -/
def digitsVal (ds : List Char) : Nat :=
  ds.foldl (fun n c => 10 * n + (c.toNat - '0'.toNat)) 0

/-- JavaScript `parseInt` restricted to base 10: skip leading whitespace, an
optional sign, then the longest digit run; `none` models `NaN`. -/
def jsParseInt (s : String) : Option Int :=
  let cs := s.data.dropWhile (fun c => c == ' ' || c == '\t' || c == '\n' || c == '\r')
  match cs with
  | '-' :: rest =>
      let ds := leadingDigits rest
      if ds.isEmpty then none else some (-(digitsVal ds : Int))
  | '+' :: rest =>
      let ds := leadingDigits rest
      if ds.isEmpty then none else some (digitsVal ds : Int)
  | _ =>
      let ds := leadingDigits cs
      if ds.isEmpty then none else some (digitsVal ds : Int)

/-- The expression `parseInt(response.headers.get('retry-after')) || 60`
(index.js line 100): a missing header gives `NaN`, and `NaN` and `0` are
falsy, so both fall back to 60. -/
def retryAfterOfHeader (h : Option String) : Int :=
  match h with
  | none => 60
  | some s =>
      match jsParseInt s with
      | none => 60
      | some n => if n == 0 then 60 else n

/-- The response fields `Crawler.fetch` inspects. -/
structure HttpResponse where
  status : Nat
  retryAfterHeader : Option String := none
  deriving Repr, DecidableEq

/-- `response.ok`: status in the 200–299 range. -/
def responseOk (r : HttpResponse) : Bool := 200 ≤ r.status && r.status ≤ 299

/-- The error `fetchWithRetries` throws for a non-ok response
(index.js lines 98–112): 429 becomes a rate-limit error carrying the parsed
`retry-after`, anything else a network error with the status code. -/
def classifyFetchFailure (url : String) (status : Nat) (retryAfterHeader : Option String) : JsError :=
  if status == 429 then
    createError "rateLimit" "Rate limit exceeded"
      { url := some url, statusCode := some status,
        retryAfter := some (retryAfterOfHeader retryAfterHeader) }
  else
    createError "network" ("HTTP " ++ toString status)
      { url := some url, statusCode := some status }

/-- One attempt of the retryable unit inside `Crawler.fetch`: a non-ok
response is classified and thrown, an ok response returned. -/
def fetchAttemptResult (url : String) (r : HttpResponse) : Except JsError HttpResponse :=
  if responseOk r then .ok r else .error (classifyFetchFailure url r.status r.retryAfterHeader)

/- ====================  Pipeline executor (src/src/client/index.js)  ==================== -/

/-- Values stored in a pipeline context object.  `crawlerRef` stands for the
back-reference `crawler: this`. -/
inductive CtxVal where
  | num (n : Int)
  | str (s : String)
  | crawlerRef
  deriving Repr, DecidableEq

/-- A JS object used as pipeline context: ordered fields, later writes
overriding in place as property assignment does. -/
abbrev Ctx := List (String × CtxVal)

/-- Setting a property of a JS object: overwrite in place when the key
exists, append otherwise. -/
def setKey {β : Type} : List (String × β) → String → β → List (String × β)
  | [], k, v => [(k, v)]
  | (k', v') :: rest, k, v =>
      if k' = k then (k, v) :: rest else (k', v') :: setKey rest k v

/-- Property lookup on a JS object. -/
def lookupKey {β : Type} : List (String × β) → String → Option β
  | [], _ => none
  | (k', v) :: rest, k => if k' = k then some v else lookupKey rest k

/-- The working context `{...context, crawler: this}` built at the start of
`executePipeline`. -/
def withCrawler (ctx : Ctx) : Ctx := setKey ctx "crawler" .crawlerRef

/-- Pipeline registry and middleware list of a `Crawler`.  A middleware may
fail, or return `none` (keep the current context) or `some c` (replace it). -/
structure PipelineRegistry (α : Type) where
  pipelines : List (String × (Ctx → Except JsError α))
  middleware : List (Ctx → Except JsError (Option Ctx))

/-- The middleware fold of `executePipeline`: `if (result) currentContext = result`. -/
def runMiddleware : List (Ctx → Except JsError (Option Ctx)) → Ctx → Except JsError Ctx
  | [], ctx => .ok ctx
  | mw :: rest, ctx =>
      match mw ctx with
      | .error e => .error e
      | .ok none => runMiddleware rest ctx
      | .ok (some c) => runMiddleware rest c

/-- The wrapping applied by `executePipeline`'s catch block
(index.js lines 75–80). -/
def pipelineWrapError (name : String) (e : JsError) : JsError :=
  createError "pipeline" ("Pipeline " ++ name ++ " failed: " ++ e.msg)
    { pipelineId := some name, originalError := some e }

/-- Crawler.executePipeline: unregistered names fail with a pipeline error
before the try block; middleware and pipeline failures are wrapped. -/
def executePipeline (cr : PipelineRegistry α) (name : String) (ctx : Ctx) : Except JsError α :=
  match lookupKey cr.pipelines name with
  | none => .error (createError "pipeline" ("Pipeline " ++ name ++ " not found"))
  | some p =>
      match runMiddleware cr.middleware (withCrawler ctx) with
      | .error e => .error (pipelineWrapError name e)
      | .ok finalCtx =>
          match p finalCtx with
          | .error e => .error (pipelineWrapError name e)
          | .ok v => .ok v

/- ====================  Crawler.extract (src/src/client/index.js)  ==================== -/

/-- Whitespace as `String.prototype.trim` strips it (the characters relevant
to element text: space, tab, newline, carriage return, form feed, vertical
tab). -/
def jsWhitespaceChar (c : Char) : Bool :=
  c == ' ' || c == '\t' || c == '\n' || c == '\r' || c == '\x0b' || c == '\x0c'

/-- JavaScript `.trim()`: strip leading and trailing whitespace. -/
def jsTrim (s : String) : String :=
  ⟨((s.data.dropWhile jsWhitespaceChar).reverse.dropWhile jsWhitespaceChar).reverse⟩

/-- Result value recorded for one selector by `extract`. -/
inductive JValue where
  | str (s : String)
  | list (l : List String)
  | null
  deriving Repr, DecidableEq

/-- A document as `extract` queries it: a selector string evaluates to the
raw texts of the matched elements, or throws (`.error`) as an invalid
selector would. -/
abbrev DocModel := String → Except String (List String)

/-- A named selector: a literal selector string or a callback on the parsed
document. -/
inductive Selector where
  | css (s : String)
  | fn (f : DocModel → Except String JValue)

/-- One iteration of the `extract` loop body: a callback's value, or for a
selector string the trimmed text of a single match and the list of trimmed
texts otherwise; any failure is caught and recorded as `null`
(index.js lines 142–154). -/
def extractValue (doc : DocModel) : Selector → JValue
  | .fn f =>
      match f doc with
      | .ok v => v
      | .error _ => .null
  | .css sel =>
      match doc sel with
      | .error _ => .null
      | .ok elems =>
          match elems with
          | [e] => .str (jsTrim e)
          | _ => .list (elems.map jsTrim)

/-- Crawler.extract over an ordered selector object. -/
def extract (doc : DocModel) (selectors : List (String × Selector)) : List (String × JValue) :=
  selectors.map (fun kv => (kv.1, extractValue doc kv.2))

/- ====================  HeaderManager (src/unnamed/part_002)  ==================== -/

/-- DEFAULT_HEADERS of src/src/utils/constants.js (first document). -/
def DEFAULT_HEADERS : List (String × String) :=
  [("User-Agent", "Mozilla/5.0 (Windows NT 10.0; Win64; x64) AppleWebKit/537.36 (KHTML, like Gecko) Chrome/91.0.4472.124 Safari/537.36"),
   ("Accept", "text/html,application/xhtml+xml,application/xml;q=0.9,image/webp,*/*;q=0.8"),
   ("Accept-Language", "en-US,en;q=0.5"),
   ("Accept-Encoding", "gzip, deflate, br"),
   ("Connection", "keep-alive"),
   ("Cache-Control", "no-cache"),
   ("Pragma", "no-cache"),
   ("DNT", "1"),
   ("Upgrade-Insecure-Requests", "1")]

/-- Object spread / `Object.assign` merge: each key of `over` written into
`base` in order. -/
def mergeHeaders (base over : List (String × String)) : List (String × String) :=
  over.foldl (fun acc kv => setKey acc kv.1 kv.2) base

/-- State of a `HeaderManager`.  The per-domain locks only serialize the
otherwise-synchronous bodies, so a sequential call sequence (which is what
the claims quantify over) sees exactly this state. -/
structure HMState where
  defaultHeaders : List (String × String)
  userAgents : List String
  customHeaders : List (String × List (String × String))
  domainHeaders : List (String × List (String × String))
  userAgentIndex : List (String × Nat)
  deriving Repr, DecidableEq

/-- HeaderManager constructor: `{...DEFAULT_HEADERS, ...config.headers}` and
`config.userAgents || [DEFAULT_HEADERS['User-Agent']]`. -/
def mkHeaderManager (cfgHeaders : List (String × String) := [])
    (cfgUserAgents : Option (List String) := none) : HMState :=
  { defaultHeaders := mergeHeaders DEFAULT_HEADERS cfgHeaders,
    userAgents := cfgUserAgents.getD [(lookupKey DEFAULT_HEADERS "User-Agent").getD ""],
    customHeaders := [], domainHeaders := [], userAgentIndex := [] }

/-- HeaderManager.getNextUserAgent: read the domain's rotation index
(defaulting to 0), return that agent, store the index advanced modulo the
agent-list length. -/
def getNextUserAgent (st : HMState) (domain : String) : String × HMState :=
  let index := (lookupKey st.userAgentIndex domain).getD 0
  let agent := st.userAgents.getD index ""
  (agent,
   { st with userAgentIndex := setKey st.userAgentIndex domain ((index + 1) % st.userAgents.length) })

/-- HeaderManager.getHeaders: compose default, domain and custom headers, and
substitute a rotated user-agent only when more than one is configured. -/
def getHeaders (st : HMState) (domain : String) : List (String × String) × HMState :=
  let base := st.defaultHeaders
  let base := mergeHeaders base ((lookupKey st.domainHeaders domain).getD [])
  let base := mergeHeaders base ((lookupKey st.customHeaders domain).getD [])
  if st.userAgents.length > 1 then
    let r := getNextUserAgent st domain
    (setKey base "User-Agent" r.1, r.2)
  else (base, st)

/-- A sequence of `getHeaders` calls, one per listed domain, returning the
produced header objects in order. -/
def runGetHeaders (st : HMState) : List String → List (List (String × String)) × HMState
  | [] => ([], st)
  | d :: ds =>
      let r := getHeaders st d
      let rest := runGetHeaders r.2 ds
      (r.1 :: rest.1, rest.2)

/- ====================  ConcurrencyPool (src/unnamed/part_001)  ==================== -/

/-- Kind of a logical task interacting with the pool: a `pool.add(fn)` call
or a `pool.waitForAll()` call. -/
inductive TaskKind where
  | add
  | waitForAll
  deriving Repr, DecidableEq

/-- Where a task stands between the pool's suspension points. -/
inductive TaskPhase where
  | notStarted
  | queued
  | woken
  | runningFn
  | finished
  deriving Repr, DecidableEq

/-- Pool state plus the phases of the interacting tasks (task id = list
index).  `running` and `queue` are the fields of the source class. -/
structure PoolState where
  size : Nat
  running : Nat
  queue : List Nat
  tasks : List (TaskKind × TaskPhase)
  deriving Repr, DecidableEq

/-- Scheduler events.  Each is one synchronous block of the source between
`await` points, atomic under the JS event loop:
`enter t` runs `add`/`waitForAll` up to its first suspension; `finish t`
is the resolution of `fn()`'s promise followed by the `finally` block
(`running--`, shift, `next()`) — `next()` only enqueues the woken waiter's
continuation; `resume t` is that continuation running later (`running++` and
the call of `fn` for an `add` waiter, plain return for `waitForAll`). -/
inductive PoolEvent where
  | enter (tid : Nat)
  | finish (tid : Nat)
  | resume (tid : Nat)
  deriving Repr, DecidableEq

/-- Replace the phase of task `tid`. -/
def setPhase (tasks : List (TaskKind × TaskPhase)) (tid : Nat) (ph : TaskPhase) :
    List (TaskKind × TaskPhase) :=
  match tasks[tid]? with
  | none => tasks
  | some kp => tasks.set tid (kp.1, ph)

/-- One scheduler event against the pool; `none` when the event is not
enabled (so `runPool` traces are exactly the schedules the event loop could
produce). -/
def poolStep (st : PoolState) : PoolEvent → Option PoolState
  | .enter tid =>
      match st.tasks[tid]? with
      | some (.add, .notStarted) =>
          if st.running ≥ st.size then
            some { st with queue := st.queue ++ [tid], tasks := setPhase st.tasks tid .queued }
          else
            some { st with running := st.running + 1, tasks := setPhase st.tasks tid .runningFn }
      | some (.waitForAll, .notStarted) =>
          if st.running > 0 then
            some { st with queue := st.queue ++ [tid], tasks := setPhase st.tasks tid .queued }
          else
            some { st with tasks := setPhase st.tasks tid .finished }
      | _ => none
  | .finish tid =>
      match st.tasks[tid]? with
      | some (.add, .runningFn) =>
          let st1 := { st with running := st.running - 1, tasks := setPhase st.tasks tid .finished }
          match st1.queue with
          | [] => some st1
          | w :: rest => some { st1 with queue := rest, tasks := setPhase st1.tasks w .woken }
      | _ => none
  | .resume tid =>
      match st.tasks[tid]? with
      | some (.add, .woken) =>
          some { st with running := st.running + 1, tasks := setPhase st.tasks tid .runningFn }
      | some (.waitForAll, .woken) =>
          some { st with tasks := setPhase st.tasks tid .finished }
      | _ => none

/-- Run a schedule of events from a state. -/
def runPool (st : PoolState) : List PoolEvent → Option PoolState
  | [] => some st
  | e :: es =>
      match poolStep st e with
      | none => none
      | some st' => runPool st' es

/-- Initial state: a fresh pool of the given size and the given tasks, none
started. -/
def poolInit (size : Nat) (kinds : List TaskKind) : PoolState :=
  { size := size, running := 0, queue := [], tasks := kinds.map (fun k => (k, .notStarted)) }

/- ====================  Concrete instances used by the theorems  ==================== -/

/-- A retryable network error, as `Crawler.fetch` would classify an
HTTP 500 response. -/
def c1NetErr : JsError :=
  createError "network" "HTTP 500" { url := some "https://example.test/a", statusCode := some 500 }

/-- A retry configuration with `maxRetries = 3`. -/
def cfgC1 : RetryConfig :=
  { maxRetries := 3, initialDelay := 1000, maxDelay := 30000, backoffFactor := 2 }

/-- A jitter stream whose `Math.random()` sample is always `1/2`, making the
jitter term 0. -/
def rand05 : Nat → ℚ := fun _ => mkRat 1 2

/-- Deterministic operation failing with a retryable error on its first
invocation only, then succeeding with 42. -/
def c1FailOnceOp : Nat → Except JsError Nat :=
  fun i => if i = 0 then .error c1NetErr else .ok 42

/-- Deterministic operation failing with a retryable error on every
invocation. -/
def c1AlwaysFailOp : Nat → Except JsError Nat := fun _ => .error c1NetErr

/-- The error thrown for an HTTP 429 response with header `retry-after: 5`
received while fetching `url`. -/
def c3RateLimitErr (url : String) : JsError := classifyFetchFailure url 429 (some "5")

/-- A non-retryable cause: the parse error `Crawler.parse` throws. -/
def c9Cause : JsError :=
  createError "parse" "Failed to parse HTML" {}

/-- Document with a single `h1` element whose text is "Case A" and nothing
else; every other selector matches no element. -/
def c4Doc : DocModel := fun sel => if sel = "h1" then .ok ["Case A"] else .ok []

/-- The selector object `{title: "h1", missing: ".nope"}`. -/
def c4Selectors : List (String × Selector) := [("title", .css "h1"), ("missing", .css ".nope")]

/-- A header manager configured with exactly one user-agent string,
different from the default one. -/
def c5OneAgent : HMState := mkHeaderManager [] (some ["agentX"])

/-- A header manager configured with two user-agent strings. -/
def c5TwoAgents : HMState := mkHeaderManager [] (some ["agentA", "agentB"])

/-- The rotation index the manager holds for a domain (0 when absent). -/
def uaIndexOf (st : HMState) (d : String) : Nat := (lookupKey st.userAgentIndex d).getD 0

/-- Event schedule realizable on the JS event loop with a pool of size 1:
task 0 holds the slot, task 1 queues; task 0's completion wakes task 1 (a
microtask); before that microtask runs, an independently queued microtask
starts task 2, which sees `running = 0` and admits itself; task 1's woken
continuation then increments `running` again. -/
def c2Trace : List PoolEvent :=
  [.enter 0, .enter 1, .finish 0, .enter 2, .resume 1]

/-- The state such a schedule reaches: two tasks running under capacity 1. -/
def c2FinalState : PoolState :=
  { size := 1, running := 2, queue := [],
    tasks := [(.add, .finished), (.add, .runningFn), (.add, .runningFn)] }

/-- Event schedule for a pool of size 2: tasks 0 and 1 hold slots, task 2
calls `waitForAll` and queues; task 0's completion shifts task 2 off the
shared queue and resumes it while task 1 is still running. -/
def c6Trace : List PoolEvent :=
  [.enter 0, .enter 1, .enter 2, .finish 0, .resume 2]

/-- The state that schedule reaches: the `waitForAll` caller has returned
while one slot is still held. -/
def c6FinalState : PoolState :=
  { size := 2, running := 1, queue := [],
    tasks := [(.add, .finished), (.add, .runningFn), (.waitForAll, .finished)] }

/- ====================  Helper lemmas  ==================== -/

theorem lookupKey_setKey_self {β : Type} (l : List (String × β)) (k : String) (v : β) :
    lookupKey (setKey l k v) k = some v := by
  induction l with
  | nil => simp [setKey, lookupKey]
  | cons kv rest ih =>
      by_cases h : kv.1 = k
      · simp [setKey, h, lookupKey]
      · simp [setKey, h, lookupKey, ih]

theorem lookupKey_setKey_ne {β : Type} (l : List (String × β)) (k k' : String) (v : β)
    (h : k' ≠ k) : lookupKey (setKey l k v) k' = lookupKey l k' := by
  induction l with
  | nil => simp [setKey, lookupKey, Ne.symm h]
  | cons kv rest ih =>
      by_cases hk : kv.1 = k
      · simp [setKey, hk, lookupKey, Ne.symm h]
      · simp [setKey, hk, lookupKey, ih]

theorem getHeaders_userAgents (st : HMState) (d : String) :
    ((getHeaders st d).2).userAgents = st.userAgents := by
  unfold getHeaders getNextUserAgent
  split <;> rfl

theorem getHeaders_ua (st : HMState) (d : String) (h2 : 1 < st.userAgents.length) :
    lookupKey (getHeaders st d).1 "User-Agent" =
      some (st.userAgents.getD (uaIndexOf st d) "") := by
  unfold getHeaders getNextUserAgent
  rw [if_pos h2]
  exact lookupKey_setKey_self _ _ _

theorem getHeaders_uaIndex_self (st : HMState) (d : String) (h2 : 1 < st.userAgents.length) :
    uaIndexOf (getHeaders st d).2 d = (uaIndexOf st d + 1) % st.userAgents.length := by
  unfold getHeaders getNextUserAgent uaIndexOf
  rw [if_pos h2]
  simp [lookupKey_setKey_self]

theorem getHeaders_uaIndex_ne (st : HMState) (d e : String) (h : e ≠ d) :
    uaIndexOf (getHeaders st d).2 e = uaIndexOf st e := by
  unfold getHeaders getNextUserAgent uaIndexOf
  split
  · simp [lookupKey_setKey_ne _ _ _ _ h]
  · rfl

/-- Rotation across an arbitrary interleaved call sequence: with more than
one configured agent, the `j`-th produced header object carries the agent
indexed by the domain's starting index plus the number of earlier calls for
the same domain, modulo the agent count.  Other domains' calls leave the
index untouched. -/
theorem runGetHeaders_ua (ds : List String) :
    ∀ (st : HMState) (j : Nat), 1 < st.userAgents.length →
      (∀ d, uaIndexOf st d < st.userAgents.length) → j < ds.length →
      lookupKey ((runGetHeaders st ds).1.getD j []) "User-Agent" =
        some (st.userAgents.getD
          ((uaIndexOf st (ds.getD j "") + (ds.take j).count (ds.getD j "")) %
            st.userAgents.length) "") := by
  induction ds with
  | nil =>
      intro st j _ _ hj
      simp at hj
  | cons d ds ih =>
      intro st j h2 hinv hj
      cases j with
      | zero =>
          have h0 : ((runGetHeaders st (d :: ds)).1.getD 0 []) = (getHeaders st d).1 := by
            simp [runGetHeaders]
          rw [h0, getHeaders_ua st d h2]
          simp [Nat.mod_eq_of_lt (hinv d)]
      | succ j =>
          have hrec : ((runGetHeaders st (d :: ds)).1.getD (j + 1) []) =
              ((runGetHeaders (getHeaders st d).2 ds).1.getD j []) := by
            simp [runGetHeaders]
          have hu : ((getHeaders st d).2).userAgents = st.userAgents :=
            getHeaders_userAgents st d
          have h2' : 1 < ((getHeaders st d).2).userAgents.length := by rw [hu]; exact h2
          have hinv' : ∀ e, uaIndexOf (getHeaders st d).2 e <
              ((getHeaders st d).2).userAgents.length := by
            intro e
            rw [hu]
            by_cases he : e = d
            · subst he
              rw [getHeaders_uaIndex_self st e h2]
              exact Nat.mod_lt _ (by omega)
            · rw [getHeaders_uaIndex_ne st d e he]
              exact hinv e
          have hj' : j < ds.length := by simpa using hj
          rw [hrec, ih (getHeaders st d).2 j h2' hinv' hj', hu]
          rw [List.getD_cons_succ, List.take_succ_cons]
          by_cases he : ds.getD j "" = d
          · rw [he, getHeaders_uaIndex_self st d h2, List.count_cons_self,
              Nat.mod_add_mod]
            have harith : uaIndexOf st d + 1 + (ds.take j).count d =
                uaIndexOf st d + ((ds.take j).count d + 1) := by omega
            rw [harith]
          · rw [getHeaders_uaIndex_ne st d _ he, List.count_cons_of_ne he]

theorem jsMin_le_jsMin_left {x y m : ℚ} (h : x ≤ y) : jsMin x m ≤ jsMin y m := by
  unfold jsMin
  split_ifs <;> linarith

theorem jsMin_le_right {x m : ℚ} : jsMin x m ≤ m := by
  unfold jsMin
  split_ifs <;> linarith

/-- With the `Math.random()` sample at `1/2` the jitter term vanishes and the
computed delay is the capped exponential. -/
theorem calculateDelay_no_jitter (cfg : RetryConfig) (n : Nat) :
    calculateDelay cfg (1 / 2) n =
      jsMin (cfg.initialDelay * cfg.backoffFactor ^ (n - 1)) cfg.maxDelay := by
  unfold calculateDelay
  norm_num

/- ====================  Claim theorems  ==================== -/

/-- C1: the claim says a deterministic operation failing `k < maxRetries`
times with a retryable error then succeeding makes `withRetries` return the
success value with an empty retry history, and an always-failing operation
is invoked exactly `maxRetries` times.  The code does neither: after the
first failure the stored retry lock is a rejected promise that is never
replaced, so every later loop iteration rethrows at
`await getRetryLock(retryKey)` without invoking the operation.  With
`maxRetries = 3` and an operation that fails retryably once and would then
succeed with 42, `withRetries` invokes the operation exactly once, leaves
the attempt-1 record in the history and rejects with the first error; an
always-failing operation is likewise invoked exactly once, not three
times. -/
theorem c1_withRetries_lock_poisoning :
    (withRetries cfgC1 rand05 c1FailOnceOp).1 = .error (some c1NetErr) ∧
    (withRetries cfgC1 rand05 c1FailOnceOp).2.calls = 1 ∧
    ((withRetries cfgC1 rand05 c1FailOnceOp).2.history.map fun r => (r.attempt, r.error)) =
      [(1, c1NetErr)] ∧
    (withRetries cfgC1 rand05 c1AlwaysFailOp).1 = .error (some c1NetErr) ∧
    (withRetries cfgC1 rand05 c1AlwaysFailOp).2.calls = 1 := by
  refine ⟨?_, ?_, ?_, ?_, ?_⟩ <;> decide

/-- C2: the claim says the pool's `running` count never exceeds its capacity
under any interleaving at suspension points.  The schedule `c2Trace` is
realizable on the JS event loop (task 0's completion wakes queued task 1 by
resolving its promise, which only enqueues a microtask; an independent
microtask then calls `add` for task 2, which reads `running = 0` and admits
itself before task 1's woken continuation performs its `running++`), and it
drives a pool of capacity 1 to `running = 2`. -/
theorem c2_pool_capacity_exceeded :
    runPool (poolInit 1 [.add, .add, .add]) c2Trace = some c2FinalState ∧
    c2FinalState.size < c2FinalState.running := by decide

/-- C3: an HTTP 429 response with header `retry-after: 5` is classified as a
rate-limit error with `metadata.retryAfter = 5` and `retryable = true`, and
for every retry configuration, jitter sample and attempt number the delay
`withRetries` uses for that error is exactly `5 * 1000 = 5000` ms,
overriding the computed backoff. -/
theorem c3_rate_limit_retry_after_delay (url : String) (cfg : RetryConfig) (jr : ℚ)
    (attempt : Nat) :
    fetchAttemptResult url { status := 429, retryAfterHeader := some "5" } =
      .error (c3RateLimitErr url) ∧
    (c3RateLimitErr url).jsName = "RateLimitError" ∧
    (c3RateLimitErr url).metaRetryAfter = some 5 ∧
    (c3RateLimitErr url).retryableFlag = some true ∧
    retryDelay cfg jr attempt (c3RateLimitErr url) = 5000 := by
  refine ⟨rfl, rfl, rfl, rfl, ?_⟩
  have h : retryDelay cfg jr attempt (c3RateLimitErr url) = ((5 : ℤ) : ℚ) * 1000 := rfl
  rw [h]
  norm_num

/-- C4 counterexample: on a document with one `h1` of text "Case A" and no
`.nope` element, `extract` records the empty list for the unmatched
selector, not `null` as the claim states — `null` is reserved for selectors
whose evaluation throws. -/
theorem c4_no_match_counterexample :
    extract c4Doc c4Selectors = [("title", .str "Case A"), ("missing", .list [])] ∧
    lookupKey (extract c4Doc c4Selectors) "missing" = some (.list []) ∧
    JValue.list [] ≠ JValue.null := by decide

/-- C4 (amended): for every document with exactly one `h1` element of text
"Case A" and no `.nope` element, `extract(doc, {title: "h1",
missing: ".nope"})` does not throw and returns `title` mapped to "Case A"
and `missing` mapped to the empty list (a selector matching nothing yields
the empty list; `null` is recorded only when a selector throws). -/
theorem c4_extract_no_match_empty_list (doc : DocModel)
    (hh1 : doc "h1" = .ok ["Case A"]) (hnope : doc ".nope" = .ok []) :
    extract doc [("title", .css "h1"), ("missing", .css ".nope")] =
      [("title", .str "Case A"), ("missing", .list [])] := by
  simp [extract, extractValue, hh1, hnope]
  decide

/-- C4 witness: the amended statement applied to the concrete document. -/
theorem c4_extract_witness :
    c4Doc "h1" = .ok ["Case A"] ∧ c4Doc ".nope" = .ok [] ∧
    extract c4Doc [("title", .css "h1"), ("missing", .css ".nope")] =
      [("title", .str "Case A"), ("missing", .list [])] :=
  ⟨by decide, by decide, c4_extract_no_match_empty_list c4Doc (by decide) (by decide)⟩

/-- C5 counterexample: with exactly one configured user-agent ("agentX"),
`getHeaders` performs no substitution at all, so the first call returns the
default-headers user-agent rather than `agents[0 mod 1] = "agentX"` as the
claim (stated for every `u ≥ 1`) requires. -/
theorem c5_single_agent_counterexample :
    lookupKey (getHeaders c5OneAgent "a.com").1 "User-Agent" =
      some "Mozilla/5.0 (Windows NT 10.0; Win64; x64) AppleWebKit/537.36 (KHTML, like Gecko) Chrome/91.0.4472.124 Safari/537.36" ∧
    c5OneAgent.userAgents.getD (0 % c5OneAgent.userAgents.length) "" = "agentX" ∧
    ("Mozilla/5.0 (Windows NT 10.0; Win64; x64) AppleWebKit/537.36 (KHTML, like Gecko) Chrome/91.0.4472.124 Safari/537.36" : String) ≠ "agentX" := by
  decide

/-- C5 (amended): when at least two user-agent strings are configured, the
`j`-th `getHeaders` call of an arbitrary interleaved call sequence on a
fresh manager returns the agent indexed by the number of earlier calls for
the same domain modulo the agent count — per-domain rotation unaffected by
other domains' calls.  (With a single configured agent no substitution
happens and the composed default headers are returned unchanged.) -/
theorem c5_user_agent_rotation (st : HMState) (ds : List String) (j : Nat)
    (h2 : 1 < st.userAgents.length) (hfresh : st.userAgentIndex = [])
    (hj : j < ds.length) :
    lookupKey ((runGetHeaders st ds).1.getD j []) "User-Agent" =
      some (st.userAgents.getD
        (((ds.take j).count (ds.getD j "")) % st.userAgents.length) "") := by
  have hinv : ∀ d, uaIndexOf st d < st.userAgents.length := by
    intro d
    unfold uaIndexOf
    rw [hfresh]
    simp [lookupKey]
    omega
  have h0 : uaIndexOf st (ds.getD j "") = 0 := by
    unfold uaIndexOf
    rw [hfresh]
    rfl
  have hmain := runGetHeaders_ua ds st j h2 hinv hj
  rw [hmain, h0, Nat.zero_add]

/-- C5 witness: two configured agents, the interleaved sequence a, b, a;
the third call (for domain a, one earlier a-call) yields
`agents[1 mod 2]`. -/
theorem c5_user_agent_rotation_witness :
    1 < c5TwoAgents.userAgents.length ∧ c5TwoAgents.userAgentIndex = [] ∧
    lookupKey ((runGetHeaders c5TwoAgents ["a.com", "b.com", "a.com"]).1.getD 2 []) "User-Agent" =
      some (c5TwoAgents.userAgents.getD
        (((["a.com", "b.com", "a.com"].take 2).count (["a.com", "b.com", "a.com"].getD 2 "")) %
          c5TwoAgents.userAgents.length) "") :=
  ⟨by decide, by decide,
    c5_user_agent_rotation c5TwoAgents ["a.com", "b.com", "a.com"] 2
      (by decide) (by decide) (by decide)⟩

/-- C6: the claim says a `waitForAll` caller is never resumed while the
held-slot count is positive.  In the code, `waitForAll` pushes its resolver
onto the same queue `add` waiters use, and any completing task wakes the
queue head; with two tasks running, the first completion resumes the
`waitForAll` caller while one slot is still held. -/
theorem c6_waitForAll_early_resume :
    runPool (poolInit 2 [.add, .add, .waitForAll]) c6Trace = some c6FinalState ∧
    0 < c6FinalState.running ∧
    c6FinalState.tasks[2]? = some (.waitForAll, .finished) := by decide

/-- C7: with pipeline `p` registered under "p" and an empty middleware list,
`executePipeline "p" ctx` returns exactly what `p` returns on the context
extended with the crawler back-reference, and executing any unregistered
name fails with a Pipeline-kind error. -/
theorem c7_execute_pipeline {α : Type} (p : Ctx → Except JsError α) (ctx : Ctx) (v : α)
    (hp : p (withCrawler ctx) = .ok v) (nm : String) (hnm : nm ≠ "p") :
    executePipeline { pipelines := [("p", p)], middleware := [] } "p" ctx = .ok v ∧
    executePipeline { pipelines := [("p", p)], middleware := [] } nm ctx =
      .error (createError "pipeline" ("Pipeline " ++ nm ++ " not found")) ∧
    (createError "pipeline" ("Pipeline " ++ nm ++ " not found")).jsName = "PipelineError" := by
  refine ⟨?_, ?_, rfl⟩
  · simp [executePipeline, lookupKey, runMiddleware, hp]
  · simp [executePipeline, lookupKey, Ne.symm hnm]

/-- C7 witness: the constant pipeline returning 7 on the context `{x: 1}`,
and the unregistered name "q". -/
theorem c7_execute_pipeline_witness :
    ((fun _ => Except.ok 7) : Ctx → Except JsError Nat) (withCrawler [("x", CtxVal.num 1)]) =
      .ok 7 ∧
    ("q" : String) ≠ "p" ∧
    executePipeline { pipelines := [("p", fun _ => Except.ok 7)], middleware := [] } "p"
      [("x", CtxVal.num 1)] = (.ok 7 : Except JsError Nat) :=
  ⟨rfl, by decide, (c7_execute_pipeline (fun _ => Except.ok 7) [("x", CtxVal.num 1)] 7 rfl "q"
    (by decide)).1⟩

/-- C8: with the jitter term fixed at 0 (the `Math.random()` sample at 1/2),
for `initialDelay ≥ 0` and `backoffFactor ≥ 1` the computed delays are
non-decreasing in the attempt number and never exceed `maxDelay`. -/
theorem c8_backoff_monotone_capped (cfg : RetryConfig) (a b : Nat)
    (h0 : 0 ≤ cfg.initialDelay) (h1 : 1 ≤ cfg.backoffFactor) (ha : 1 ≤ a) (hab : a ≤ b) :
    calculateDelay cfg (1 / 2) a ≤ calculateDelay cfg (1 / 2) b ∧
    calculateDelay cfg (1 / 2) a ≤ cfg.maxDelay := by
  rw [calculateDelay_no_jitter, calculateDelay_no_jitter]
  constructor
  · exact jsMin_le_jsMin_left
      (mul_le_mul_of_nonneg_left (pow_le_pow_right₀ h1 (by omega : a - 1 ≤ b - 1)) h0)
  · exact jsMin_le_right

/-- C8 witness: the repository's default retry configuration at attempts 1
and 2. -/
theorem c8_backoff_witness :
    (0 : ℚ) ≤ DEFAULT_RETRY_CONFIG.initialDelay ∧
    (1 : ℚ) ≤ DEFAULT_RETRY_CONFIG.backoffFactor ∧
    (calculateDelay DEFAULT_RETRY_CONFIG (1 / 2) 1 ≤ calculateDelay DEFAULT_RETRY_CONFIG (1 / 2) 2 ∧
     calculateDelay DEFAULT_RETRY_CONFIG (1 / 2) 1 ≤ DEFAULT_RETRY_CONFIG.maxDelay) :=
  ⟨by decide, by decide,
    c8_backoff_monotone_capped DEFAULT_RETRY_CONFIG 1 2 (by decide) (by decide) (by decide)
      (by decide)⟩

/-- C9 counterexample: `executePipeline` wrapping a non-retryable parse
error produces a pipeline error whose `retryable` flag is `true`, so the
flag is neither inherited from the wrapped cause nor defaulted to
non-retryable. -/
theorem c9_wrap_retryable_counterexample :
    executePipeline { pipelines := [("p", fun _ => .error c9Cause)], middleware := [] } "p" []
      = (.error (pipelineWrapError "p" c9Cause) : Except JsError Nat) ∧
    isRetryableError c9Cause = false ∧
    (pipelineWrapError "p" c9Cause).retryableFlag = some true ∧
    (pipelineWrapError "q" (.plain "boom")).retryableFlag = some true := by decide

/-- C9 (amended): every Pipeline-kind error produced by `executePipeline`
when wrapping a failure has `retryable = true`, regardless of the wrapped
cause's retryability — the wrap never consults the cause's flag, and the
constructor default at the wrapping boundary is retryable, not
non-retryable. -/
theorem c9_pipeline_wrap_retryable_true (nm : String) (e : JsError) :
    (pipelineWrapError nm e).retryableFlag = some true ∧
    (pipelineWrapError nm e).jsName = "PipelineError" ∧
    (pipelineWrapError nm e).metaPipelineId = some nm :=
  ⟨rfl, rfl, rfl⟩

/-- C10: with `maxRetries < 1` the attempt loop of `withRetries` never runs,
so the operation is never invoked and the call rejects with the initial
`lastError`, which is the value `null`, not an `Error`. -/
theorem c10_zero_retries_rejects_null {α : Type} (cfg : RetryConfig) (rand : Nat → ℚ)
    (op : Nat → Except JsError α) (h : cfg.maxRetries < 1) :
    withRetries cfg rand op = (.error none, rmInit) := by
  have h0 : cfg.maxRetries = 0 := by omega
  unfold withRetries
  rw [h0]
  rfl

/-- C10 witness: a configuration with `maxRetries = 0` and an operation that
would succeed with 42 if it were ever invoked. -/
theorem c10_zero_retries_witness :
    withRetries { maxRetries := 0, initialDelay := 1000, maxDelay := 30000, backoffFactor := 2 }
      rand05 (fun _ => Except.ok (42 : Nat)) = (.error none, rmInit) :=
  c10_zero_retries_rejects_null _ _ _ (by decide)
